import Mathlib

/-!
Shallow embedding of the QR-table-café order core
(src/server/routes/orders.js, src/server/routes/payments.js, src/server/db.js),
together with theorems settling the frozen specification claims.

Monetary amounts and quantities are modelled as integers (the source uses JS
numbers over SQL REAL columns; every computation the claims turn on is exact
integer arithmetic); identifiers as naturals; SQL rows as Lean structures;
the data store as lists of rows.  JavaScript truthiness of the
request fields that the handlers test with `!x` or `x || d` is modelled
explicitly (`jsFalsyStr`, `jsQtyDefault`).
-/

namespace QRCafe

/-- Internal order status enum (CHECK constraint on orders.internal_status). -/
inductive Status
  | PLACED
  | PREPARING
  | READY
  | SERVED
deriving DecidableEq, Repr

/-- STATUS_MAP from src/server/routes/orders.js: internal → public status. -/
def STATUS_MAP : Status → String
  | .PLACED => "Order placed"
  | .PREPARING => "Being prepared"
  | .READY => "Almost ready"
  | .SERVED => "Served"

/-- payment_mode CHECK constraint: PREPAID or POSTPAID. -/
inductive PaymentMode
  | PREPAID
  | POSTPAID
deriving DecidableEq, Repr

/-- Staff roles admitted by requireRole('kitchen', 'waiter', 'admin') on the
status route (users.role CHECK constraint). -/
inductive Role
  | admin
  | kitchen
  | waiter
deriving DecidableEq, Repr

/-- A row of the `tables` table. -/
structure TableRow where
  id : Nat
  restaurant_id : Nat
  table_number : Nat
  qr_token : String
  active : Bool
deriving DecidableEq, Repr

/-- A row of the `menu_items` table (fields the order routes read). -/
structure MenuItemRow where
  id : Nat
  restaurant_id : Nat
  name : String
  price : Int
  active : Bool
deriving DecidableEq, Repr

/-- A row of the `orders` table. -/
structure OrderRow where
  id : Nat
  restaurant_id : Nat
  table_id : Nat
  internal_status : Status
  public_status : String
  payment_mode : PaymentMode
  total_amount : Int
  notes : String
  updated_at : Nat
deriving DecidableEq, Repr

/-- A row of the `order_items` table. -/
structure OrderItemRow where
  order_id : Nat
  menu_item_id : Nat
  item_name : String
  quantity : Int
  price_at_order : Int
  notes : String
deriving DecidableEq, Repr

/-- A row of the `payments` table. -/
structure PaymentRow where
  id : Nat
  order_id : Option Nat
  restaurant_id : Nat
  razorpay_order_id : String
  razorpay_payment_id : String
  razorpay_signature : String
  amount : Int
  status : String
  verified : Bool
  payment_mode : PaymentMode
deriving DecidableEq, Repr

/-- The data store: the tables the order/payment routes touch, plus the id
sequences and a logical clock standing in for CURRENT_TIMESTAMP. -/
structure Store where
  tables : List TableRow
  menu_items : List MenuItemRow
  orders : List OrderRow
  order_items : List OrderItemRow
  payments : List PaymentRow
  next_order_id : Nat
  now : Nat
deriving DecidableEq, Repr

/-- Payload of an `order-updated` event as emitted by the status and
add-items handlers (table_number is optional because the emitter reads it
through `?.table_number`). -/
structure OrderUpdatedEvent where
  restaurant_id : Nat
  order_id : Nat
  internal_status : Status
  public_status : String
  table_number : Option Nat
deriving DecidableEq, Repr

/-- Events published on the in-process bus (utils/events). -/
inductive BusEvent
  | newOrder (restaurant_id : Nat) (order : OrderRow) (items : List OrderItemRow)
  | orderUpdated (e : OrderUpdatedEvent)
  | callWaiter (restaurant_id : Nat) (table_number : Nat)
deriving DecidableEq, Repr

/-- JS truthiness test for an optional request string: `!x` is true for a
missing field and for the empty string. -/
def jsFalsyStr : Option String → Bool
  | none => true
  | some s => s.isEmpty

/-- `item.quantity || 1` — missing or zero quantity defaults to 1; every
other number (negative or fractional included) is kept as submitted. -/
def jsQtyDefault : Option Int → Int
  | none => 1
  | some v => if v = 0 then 1 else v

/-- `x || ''` for optional string request fields. -/
def jsStrDefault : Option String → String
  | none => ""
  | some s => s

/-- String concatenation with a possibly-undefined JS value
(`ref + '|' + razorpay_payment_id`). -/
def jsConcatVal : Option String → String
  | none => "undefined"
  | some s => s

/-- Character-list prefix test. -/
def charsStartsWith : List Char → List Char → Bool
  | _, [] => true
  | [], _ :: _ => false
  | c :: cs, p :: ps => c == p && charsStartsWith cs ps

/-- JS String.prototype.startsWith, as used in
`razorpay_order_id.startsWith('order_mock_')`. -/
def strStartsWith (s p : String) : Bool :=
  charsStartsWith s.data p.data

/-- `SELECT ... FROM tables WHERE qr_token = ? AND active = 1`. -/
def findTableByToken (s : Store) (tok : Option String) : Option TableRow :=
  match tok with
  | none => none
  | some t => s.tables.find? (fun r => r.qr_token == t && r.active)

/-- `SELECT ... FROM menu_items WHERE id = ? AND restaurant_id = ? AND active = 1`. -/
def findMenuItem (s : Store) (mid rid : Nat) : Option MenuItemRow :=
  s.menu_items.find? (fun m => m.id == mid && m.restaurant_id == rid && m.active)

/-- `SELECT * FROM payments WHERE razorpay_order_id = ?`. -/
def findPaymentByRef (s : Store) (ref : String) : Option PaymentRow :=
  s.payments.find? (fun p => p.razorpay_order_id == ref)

/-- `SELECT * FROM orders WHERE id = ? AND restaurant_id = ?`. -/
def findOrderForRestaurant (s : Store) (oid rid : Nat) : Option OrderRow :=
  s.orders.find? (fun o => o.id == oid && o.restaurant_id == rid)

/-- `SELECT ... FROM orders WHERE id = ? AND table_id = ? AND payment_mode = ?`. -/
def findOrderForTable (s : Store) (oid tid : Nat) (pm : PaymentMode) : Option OrderRow :=
  s.orders.find? (fun o => o.id == oid && o.table_id == tid && o.payment_mode == pm)

/-- `SELECT table_number FROM tables WHERE id = ?` followed by `?.table_number`. -/
def tableNumberOf (s : Store) (tid : Nat) : Option Nat :=
  (s.tables.find? (fun t => t.id == tid)).map (fun t => t.table_number)

/-- One line item of a client request body.  `price` is whatever price field
the client chose to submit; the handlers never read it. -/
structure ReqItem where
  menu_item_id : Nat
  quantity : Option Int
  price : Option Int
  notes : Option String
deriving DecidableEq, Repr

/-- An order line prepared by the server-side re-pricing loops before insert. -/
structure PreparedItem where
  menu_item_id : Nat
  item_name : String
  quantity : Int
  price_at_order : Int
  notes : String
deriving DecidableEq, Repr

/-- The re-pricing loop of POST /api/orders and /:id/add-items: looks every
line up in the live active menu and fails on the first missing item,
returning its id; otherwise returns the accumulated total and the prepared
rows. -/
def priceItemsStrict (s : Store) (rid : Nat) : List ReqItem → Except Nat (Int × List PreparedItem)
  | [] => .ok (0, [])
  | item :: rest =>
    match findMenuItem s item.menu_item_id rid with
    | none => .error item.menu_item_id
    | some m =>
      let qty := jsQtyDefault item.quantity
      match priceItemsStrict s rid rest with
      | .error e => .error e
      | .ok (t, ps) =>
        .ok (m.price * qty + t,
          { menu_item_id := m.id, item_name := m.name, quantity := qty,
            price_at_order := m.price, notes := jsStrDefault item.notes } :: ps)

/-- The re-pricing loop of POST /api/payments/verify: a missing or inactive
menu item is skipped (`if (!menuItem) continue`) instead of failing. -/
def priceItemsSkip (s : Store) (rid : Nat) : List ReqItem → Int × List PreparedItem
  | [] => (0, [])
  | item :: rest =>
    let (t, ps) := priceItemsSkip s rid rest
    match findMenuItem s item.menu_item_id rid with
    | none => (t, ps)
    | some m =>
      let qty := jsQtyDefault item.quantity
      (m.price * qty + t,
        { menu_item_id := m.id, item_name := m.name, quantity := qty,
          price_at_order := m.price, notes := jsStrDefault item.notes } :: ps)

/-- Sum of price_at_order × quantity over persisted order rows. -/
def orderItemsTotal (items : List OrderItemRow) : Int :=
  (items.map (fun oi => oi.price_at_order * oi.quantity)).sum

/-- Sum of price_at_order × quantity over prepared rows. -/
def preparedTotal (ps : List PreparedItem) : Int :=
  (ps.map (fun p => p.price_at_order * p.quantity)).sum

-- ─── Primitive data-store writes ─────────────────────────────

/-- One primitive write the creation paths issue against the store.  The
db.js `transaction` wrapper executes its body sequentially with no
begin/commit/rollback, so a failure after k writes leaves exactly the first
k applied. -/
inductive WriteStep
  | insertOrder (o : OrderRow)
  | insertOrderItem (oi : OrderItemRow)
  | linkPayment (ref : String) (oid : Nat)
deriving DecidableEq, Repr

/-- Apply one write to the store. -/
def applyWrite (s : Store) : WriteStep → Store
  | .insertOrder o =>
      { s with orders := s.orders ++ [o], next_order_id := s.next_order_id + 1 }
  | .insertOrderItem oi =>
      { s with order_items := s.order_items ++ [oi] }
  | .linkPayment ref oid =>
      { s with payments := s.payments.map (fun p =>
          if p.razorpay_order_id == ref then { p with order_id := some oid } else p) }

/-- Run all writes of a sequence. -/
def runWrites (s : Store) (ws : List WriteStep) : Store :=
  ws.foldl applyWrite s

/-- Run only the first k writes — the store a failure at step k+1 leaves
behind, since db.transaction (src/server/db.js) provides no rollback. -/
def runWritesPrefix (s : Store) (ws : List WriteStep) (k : Nat) : Store :=
  (ws.take k).foldl applyWrite s

/-- `db.transaction(fn)` from src/server/db.js: "Since we can't do real
transactions over REST, we execute sequentially" — the wrapper just runs the
body. -/
def dbTransaction (fn : Store → Store) : Store → Store := fn

/-- The order-insert row built by the creation paths
(`INSERT INTO orders ... VALUES (?, ?, 'PLACED', 'Order placed', ?, ?, ?)`). -/
def mkOrderRow (s : Store) (t : TableRow) (pm : PaymentMode) (total : Int)
    (notes : Option String) : OrderRow :=
  { id := s.next_order_id, restaurant_id := t.restaurant_id, table_id := t.id,
    internal_status := .PLACED, public_status := "Order placed",
    payment_mode := pm, total_amount := total,
    notes := jsStrDefault notes, updated_at := s.now }

/-- order_items rows built from the prepared lines for a given order id. -/
def mkItemRows (oid : Nat) (ps : List PreparedItem) : List OrderItemRow :=
  ps.map (fun p =>
    { order_id := oid, menu_item_id := p.menu_item_id, item_name := p.item_name,
      quantity := p.quantity, price_at_order := p.price_at_order, notes := p.notes })

/-- The write sequence of the order-creation block shared by POST /api/orders
(order insert, then one insert per item) — in the PREPAID verification path
the same block runs inside db.transaction and is followed by the payment
link. -/
def creationWrites (o : OrderRow) (ps : List PreparedItem) : List WriteStep :=
  .insertOrder o :: (mkItemRows o.id ps).map .insertOrderItem

/-- The full write sequence of the PREPAID completion transaction body:
create order + create order items + link payment. -/
def prepaidCreationWrites (o : OrderRow) (ps : List PreparedItem) (ref : String) :
    List WriteStep :=
  creationWrites o ps ++ [.linkPayment ref o.id]

-- ─── HTTP results ────────────────────────────────────────────

/-- Outcome of a route handler: a success JSON body or an error JSON. -/
inductive HttpResult (β : Type)
  | ok (code : Nat) (body : β)
  | err (code : Nat) (msg : String)
deriving DecidableEq, Repr

/-- Whether a handler outcome is an error response. -/
def HttpResult.isErr {β : Type} : HttpResult β → Bool
  | .ok _ _ => false
  | .err _ _ => true

/-- HTTP status code of a handler outcome. -/
def HttpResult.statusCode {β : Type} : HttpResult β → Nat
  | .ok c _ => c
  | .err c _ => c

-- ─── POST /api/orders ────────────────────────────────────────

/-- Request body of POST /api/orders. -/
structure CreateOrderReq where
  table_token : Option String
  items : List ReqItem
  payment_mode : Option String
  notes : Option String
deriving DecidableEq, Repr

/-- Success body of POST /api/orders. -/
structure CreateOrderBody where
  order_id : Nat
  public_status : String
  total_amount : Int
  payment_mode : String
deriving DecidableEq, Repr

/-- POST /api/orders (src/server/routes/orders.js lines 18–101).
`internalCall` models `req._internalCall`; an HTTP client can never set it,
so every direct request runs with `internalCall = false`. -/
def ordersCreate (s : Store) (req : CreateOrderReq) (internalCall : Bool) :
    Store × HttpResult CreateOrderBody × List BusEvent :=
  if jsFalsyStr req.table_token || req.items.isEmpty || jsFalsyStr req.payment_mode then
    (s, .err 400 "table_token, items, and payment_mode are required", [])
  else if !(req.payment_mode == some "PREPAID" || req.payment_mode == some "POSTPAID") then
    (s, .err 400 "payment_mode must be PREPAID or POSTPAID", [])
  else
    match findTableByToken s req.table_token with
    | none => (s, .err 404 "Invalid table", [])
    | some table =>
      if req.payment_mode == some "PREPAID" && !internalCall then
        (s, .err 400 "Prepaid orders must go through payment verification first", [])
      else
        match priceItemsStrict s table.restaurant_id req.items with
        | .error _ => (s, .err 400 "Menu item not found or inactive", [])
        | .ok (totalAmount, orderItems) =>
          let pm : PaymentMode :=
            if req.payment_mode == some "PREPAID" then .PREPAID else .POSTPAID
          let o := mkOrderRow s table pm totalAmount req.notes
          let s1 := runWrites s (creationWrites o orderItems)
          (s1,
           .ok 201 { order_id := o.id, public_status := "Order placed",
                     total_amount := totalAmount,
                     payment_mode := jsStrDefault req.payment_mode },
           [.newOrder table.restaurant_id o (mkItemRows o.id orderItems)])

-- ─── POST /api/orders/:id/add-items ──────────────────────────

/-- Request body of POST /api/orders/:id/add-items. -/
structure AddItemsReq where
  table_token : Option String
  items : List ReqItem
deriving DecidableEq, Repr

/-- Success body of POST /api/orders/:id/add-items. -/
structure AddItemsBody where
  order_id : Nat
  total_amount : Int
  added_items : Nat
  public_status : String
deriving DecidableEq, Repr

/-- `UPDATE orders SET total_amount = ? WHERE id = ?`. -/
def updateOrderTotal (s : Store) (oid : Nat) (newTotal : Int) : Store :=
  { s with orders := s.orders.map (fun o =>
      if o.id == oid then { o with total_amount := newTotal } else o) }

/-- POST /api/orders/:id/add-items (src/server/routes/orders.js lines 106–178). -/
def ordersAddItems (s : Store) (oid : Nat) (req : AddItemsReq) :
    Store × HttpResult AddItemsBody × List BusEvent :=
  if jsFalsyStr req.table_token || req.items.isEmpty then
    (s, .err 400 "table_token and items are required", [])
  else
    match findTableByToken s req.table_token with
    | none => (s, .err 404 "Invalid table", [])
    | some table =>
      match findOrderForTable s oid table.id .POSTPAID with
      | none => (s, .err 404 "Order not found", [])
      | some order =>
        if order.internal_status == .SERVED then
          (s, .err 400 "Cannot add items to a served order", [])
        else
          match priceItemsStrict s table.restaurant_id req.items with
          | .error _ => (s, .err 400 "Item not found", [])
          | .ok (additionalAmount, newItems) =>
            let s1 := runWrites s ((mkItemRows oid newItems).map .insertOrderItem)
            let newTotal := order.total_amount + additionalAmount
            let s2 := updateOrderTotal s1 oid newTotal
            let pubStat :=
              ((s2.orders.find? (fun o => o.id == oid)).map
                (fun o => o.public_status)).getD "undefined"
            (s2,
             .ok 200 { order_id := oid, total_amount := newTotal,
                       added_items := newItems.length, public_status := pubStat },
             [.orderUpdated { restaurant_id := table.restaurant_id, order_id := oid,
                              internal_status := order.internal_status,
                              public_status := pubStat,
                              table_number := tableNumberOf s2 order.table_id }])

-- ─── POST /api/payments/verify ───────────────────────────────

/-- Request body of POST /api/payments/verify. -/
structure VerifyReq where
  razorpay_payment_id : Option String
  razorpay_order_id : Option String
  razorpay_signature : Option String
  table_token : Option String
  items : List ReqItem
  payment_mode : Option String
  notes : Option String
  order_id : Option Nat
deriving DecidableEq, Repr

/-- Gateway configuration: `liveCreds` is whether getRazorpayInstance()
returns a live client (module loaded and RAZORPAY_KEY_ID set to a non
placeholder value); `secret` is RAZORPAY_KEY_SECRET; `hmacSha256 key msg`
models crypto.createHmac('sha256', key).update(msg).digest('hex'). -/
structure Config where
  liveCreds : Bool
  secret : String
  hmacSha256 : String → String → String

/-- Success body of POST /api/payments/verify. -/
structure VerifyBody where
  verified : Bool
  order_id : Option Nat
  public_status : Option String
  total_amount : Option Int
  message : String
deriving DecidableEq, Repr

/-- JS truthiness of an optional numeric id (`order_id` in the request). -/
def jsTruthyNat : Option Nat → Bool
  | none => false
  | some n => n != 0

/-- The `verified` computation of POST /api/payments/verify
(src/server/routes/payments.js lines 140–155): with a live gateway AND a
truthy submitted signature, compare against the HMAC of
`razorpay_order_id + '|' + razorpay_payment_id` under the server secret;
otherwise auto-verify exactly the refs carrying the mock prefix. -/
def computeVerified (cfg : Config) (orderRef : String)
    (paymentRef signature : Option String) : Bool :=
  if cfg.liveCreds && !(jsFalsyStr signature) then
    cfg.hmacSha256 cfg.secret (orderRef ++ "|" ++ jsConcatVal paymentRef)
      == jsStrDefault signature
  else if strStartsWith orderRef "order_mock_" then true
  else false

/-- `UPDATE payments SET status = 'failed', ... WHERE razorpay_order_id = ?`. -/
def markPaymentsFailed (s : Store) (ref : String) (paymentRef signature : Option String) :
    Store :=
  { s with payments := s.payments.map (fun p =>
      if p.razorpay_order_id == ref then
        { p with status := "failed",
                 razorpay_payment_id := jsStrDefault paymentRef,
                 razorpay_signature := jsStrDefault signature }
      else p) }

/-- `razorpay_payment_id || 'mock_pay_' + Date.now()`. -/
def jsStrOr (x : Option String) (d : String) : String :=
  match x with
  | none => d
  | some v => if v.isEmpty then d else v

/-- `UPDATE payments SET status = 'paid', verified = 1, ... WHERE razorpay_order_id = ?`. -/
def markPaymentsPaid (s : Store) (ref : String) (paymentRef signature : Option String) :
    Store :=
  { s with payments := s.payments.map (fun p =>
      if p.razorpay_order_id == ref then
        { p with status := "paid", verified := true,
                 razorpay_payment_id := jsStrOr paymentRef ("mock_pay_" ++ toString s.now),
                 razorpay_signature := jsStrDefault signature }
      else p) }

/-- POST /api/payments/verify (src/server/routes/payments.js lines 121–254). -/
def paymentsVerify (cfg : Config) (s : Store) (req : VerifyReq) :
    Store × HttpResult VerifyBody × List BusEvent :=
  if jsFalsyStr req.razorpay_order_id then
    (s, .err 400 "razorpay_order_id is required", [])
  else
    let orderRef := jsStrDefault req.razorpay_order_id
    match findTableByToken s req.table_token with
    | none => (s, .err 404 "Invalid table", [])
    | some table =>
      match findPaymentByRef s orderRef with
      | none => (s, .err 404 "Payment record not found", [])
      | some _payment =>
        if !(computeVerified cfg orderRef req.razorpay_payment_id req.razorpay_signature) then
          (markPaymentsFailed s orderRef req.razorpay_payment_id req.razorpay_signature,
           .err 400 "Payment verification failed", [])
        else
          let s1 := markPaymentsPaid s orderRef req.razorpay_payment_id req.razorpay_signature
          if req.payment_mode == some "POSTPAID" && jsTruthyNat req.order_id then
            (applyWrite s1 (.linkPayment orderRef (req.order_id.getD 0)),
             .ok 200 { verified := true, order_id := req.order_id, public_status := none,
                       total_amount := none, message := "Payment verified. Bill is closed." },
             [])
          else if req.items.isEmpty then
            (s1, .err 400 "Items required for prepaid order creation", [])
          else
            let priced := priceItemsSkip s1 table.restaurant_id req.items
            let totalAmount := priced.1
            let orderItems := priced.2
            let o := mkOrderRow s1 table .PREPAID totalAmount req.notes
            let s2 := dbTransaction
              (fun st => runWrites st (prepaidCreationWrites o orderItems orderRef)) s1
            (s2,
             .ok 200 { verified := true, order_id := some o.id,
                       public_status := some "Order placed",
                       total_amount := some totalAmount,
                       message := "Payment verified. Your order has been placed!" },
             [.newOrder table.restaurant_id o (mkItemRows o.id orderItems)])

/-- The verification outcome the handler reaches: `none` when an early check
fails before the signature branch, otherwise the computed `verified` flag. -/
def verifyOutcome (cfg : Config) (s : Store) (req : VerifyReq) : Option Bool :=
  if jsFalsyStr req.razorpay_order_id then none
  else
    let orderRef := jsStrDefault req.razorpay_order_id
    match findTableByToken s req.table_token with
    | none => none
    | some _ =>
      match findPaymentByRef s orderRef with
      | none => none
      | some _ =>
        some (computeVerified cfg orderRef req.razorpay_payment_id req.razorpay_signature)

/-- The `verified` flag a caller of the verify route observes (error
responses carry `verified: false` or omit it). -/
def verifyRespVerified : HttpResult VerifyBody → Bool
  | .ok _ b => b.verified
  | .err _ _ => false

-- ─── PATCH /api/orders/:id/status ────────────────────────────

/-- Authenticated caller context produced by authenticateToken/requireRole:
role is one of the three roles admitted by the route's requireRole guard. -/
structure UserCtx where
  role : Role
  restaurant_id : Nat
deriving DecidableEq, Repr

/-- Success body of PATCH /api/orders/:id/status. -/
structure StatusBody where
  internal_status : Status
  public_status : String
deriving DecidableEq, Repr

/-- `['PLACED', 'PREPARING', 'READY', 'SERVED'].includes(internal_status)`. -/
def parseStatus : String → Option Status
  | "PLACED" => some .PLACED
  | "PREPARING" => some .PREPARING
  | "READY" => some .READY
  | "SERVED" => some .SERVED
  | _ => none

/-- PATCH /api/orders/:id/status (src/server/routes/orders.js lines 324–368). -/
def ordersUpdateStatus (s : Store) (user : UserCtx) (oid : Nat) (internal_status : String) :
    Store × HttpResult StatusBody × List BusEvent :=
  match parseStatus internal_status with
  | none => (s, .err 400 "Invalid status", [])
  | some st =>
    match findOrderForRestaurant s oid user.restaurant_id with
    | none => (s, .err 404 "Order not found", [])
    | some order =>
      if user.role == .kitchen && !(st == .PREPARING || st == .READY) then
        (s, .err 403 "Kitchen can only set PREPARING or READY", [])
      else if user.role == .waiter && !(st == .SERVED) then
        (s, .err 403 "Waiter can only set SERVED", [])
      else
        let pub := STATUS_MAP st
        let s1 := { s with orders := s.orders.map (fun o =>
          if o.id == oid then
            { o with internal_status := st, public_status := pub, updated_at := s.now }
          else o) }
        (s1,
         .ok 200 { internal_status := st, public_status := pub },
         [.orderUpdated { restaurant_id := user.restaurant_id, order_id := oid,
                          internal_status := st, public_status := pub,
                          table_number := tableNumberOf s order.table_id }])

-- ─── GET /api/orders/:id ─────────────────────────────────────

/-- Projection of an order_items row returned to the customer. -/
structure OrderItemView where
  item_name : String
  quantity : Int
  price_at_order : Int
  notes : String
deriving DecidableEq, Repr

/-- Success body of GET /api/orders/:id. -/
structure GetOrderBody where
  id : Nat
  table_number : Nat
  public_status : String
  payment_mode : PaymentMode
  total_amount : Int
  items : List OrderItemView
  payment_status : Option String
deriving DecidableEq, Repr

/-- `SELECT status, verified FROM payments WHERE order_id = ?
ORDER BY created_at DESC LIMIT 1` (payments are stored in insertion order,
so the latest is the last matching row). -/
def latestPaymentForOrder (s : Store) (oid : Nat) : Option PaymentRow :=
  (s.payments.filter (fun p => p.order_id == some oid)).getLast?

/-- GET /api/orders/:id?token=... (src/server/routes/orders.js lines 183–227).
Only reads the store, so returns just the outcome. -/
def ordersGet (s : Store) (oid : Nat) (token : Option String) : HttpResult GetOrderBody :=
  match s.orders.find? (fun o => o.id == oid) with
  | none => .err 404 "Order not found"
  | some order =>
    match s.tables.find? (fun t => t.id == order.table_id) with
    | none => .err 404 "Order not found"
    | some tbl =>
      let items := (s.order_items.filter (fun oi => oi.order_id == oid)).map
        (fun oi => ({ item_name := oi.item_name, quantity := oi.quantity,
                      price_at_order := oi.price_at_order,
                      notes := oi.notes } : OrderItemView))
      let body : GetOrderBody :=
        { id := order.id, table_number := tbl.table_number,
          public_status := order.public_status, payment_mode := order.payment_mode,
          total_amount := order.total_amount, items := items,
          payment_status :=
            match latestPaymentForOrder s oid with
            | some p => some p.status
            | none => if order.payment_mode == .POSTPAID then some "pending" else none }
      if jsFalsyStr token then .ok 200 body
      else
        match s.tables.find? (fun t => t.qr_token == jsStrDefault token) with
        | none => .err 403 "Access denied"
        | some t2 =>
          if t2.id == order.table_id then .ok 200 body else .err 403 "Access denied"

-- ─── Customer SSE channel (GET /order/:orderId) ──────────────

/-- The only message shape the customer tracking stream ever writes
(src/server/routes/payments.js lines 417–425): order id and public status. -/
structure CustomerStatusMsg where
  order_id : Nat
  public_status : String
deriving DecidableEq, Repr

/-- The customer tracking channel for one order id: the route registers a
handler only for the `order-updated` topic, forwards only matching order
ids, and re-projects the payload down to order id + public status. -/
def customerChannel (orderId : Nat) : BusEvent → Option CustomerStatusMsg
  | .orderUpdated e =>
      if e.order_id == orderId then
        some { order_id := e.order_id, public_status := e.public_status }
      else none
  | _ => none

-- ─── Specification-side definitions ──────────────────────────

/-- The role/target sets allowed by §4.1 of the spec: kitchen may set only
PREPARING or READY, waiter only SERVED, admin anything. -/
def allowedTarget (r : Role) (st : Status) : Bool :=
  match r with
  | .kitchen => st == .PREPARING || st == .READY
  | .waiter => st == .SERVED
  | .admin => true

/-- Drop whatever price field the client submitted from every line item. -/
def scrubClientPrices (items : List ReqItem) : List ReqItem :=
  items.map (fun i => { i with price := none })

-- ─── Helper lemmas about the pricing loops and write sequences ─

theorem priceItemsStrict_total (s : Store) (rid : Nat) :
    ∀ (items : List ReqItem) (t : Int) (ps : List PreparedItem),
      priceItemsStrict s rid items = .ok (t, ps) → t = preparedTotal ps := by
  intro items
  induction items with
  | nil =>
    intro t ps h
    simp only [priceItemsStrict] at h
    cases h
    simp [preparedTotal]
  | cons item rest ih =>
    intro t ps h
    simp only [priceItemsStrict] at h
    cases hm : findMenuItem s item.menu_item_id rid with
    | none => rw [hm] at h; cases h
    | some m =>
      rw [hm] at h
      cases hr : priceItemsStrict s rid rest with
      | error e => rw [hr] at h; cases h
      | ok pr =>
        rw [hr] at h
        cases h
        simp [preparedTotal, ih pr.1 pr.2 (by rw [hr])]

theorem priceItemsSkip_total (s : Store) (rid : Nat) :
    ∀ items : List ReqItem,
      (priceItemsSkip s rid items).1 = preparedTotal (priceItemsSkip s rid items).2 := by
  intro items
  induction items with
  | nil => simp [priceItemsSkip, preparedTotal]
  | cons item rest ih =>
    simp only [priceItemsSkip]
    cases hm : findMenuItem s item.menu_item_id rid with
    | none => simpa [hm] using ih
    | some m => simp [hm, preparedTotal, ih]

theorem orderItemsTotal_mkItemRows (oid : Nat) (ps : List PreparedItem) :
    orderItemsTotal (mkItemRows oid ps) = preparedTotal ps := by
  simp [orderItemsTotal, mkItemRows, preparedTotal, List.map_map]
  rfl

theorem mkItemRows_order_id (oid : Nat) (ps : List PreparedItem) :
    ∀ oi ∈ mkItemRows oid ps, oi.order_id = oid := by
  intro oi h
  simp only [mkItemRows, List.mem_map] at h
  obtain ⟨p, _, rfl⟩ := h
  rfl

theorem runWrites_insertItems (rows : List OrderItemRow) :
    ∀ s : Store, runWrites s (rows.map .insertOrderItem) =
      { s with order_items := s.order_items ++ rows } := by
  induction rows with
  | nil => intro s; simp [runWrites]
  | cons r rest ih =>
    intro s
    simp only [List.map_cons, runWrites, List.foldl_cons]
    have := ih (applyWrite s (.insertOrderItem r))
    simp only [runWrites] at this
    rw [this]
    simp [applyWrite]

theorem runWrites_creation (s : Store) (o : OrderRow) (ps : List PreparedItem) :
    runWrites s (creationWrites o ps) =
      { s with orders := s.orders ++ [o],
               order_items := s.order_items ++ mkItemRows o.id ps,
               next_order_id := s.next_order_id + 1 } := by
  simp only [creationWrites, runWrites, List.foldl_cons]
  have := runWrites_insertItems (mkItemRows o.id ps) (applyWrite s (.insertOrder o))
  simp only [runWrites] at this
  rw [this]
  simp [applyWrite]

theorem runWrites_prepaidCreation (s : Store) (o : OrderRow) (ps : List PreparedItem)
    (ref : String) :
    runWrites s (prepaidCreationWrites o ps ref) =
      { s with orders := s.orders ++ [o],
               order_items := s.order_items ++ mkItemRows o.id ps,
               next_order_id := s.next_order_id + 1,
               payments := s.payments.map (fun p =>
                 if p.razorpay_order_id == ref then { p with order_id := some o.id }
                 else p) } := by
  simp only [prepaidCreationWrites, runWrites, List.foldl_append]
  have := runWrites_creation s o ps
  simp only [runWrites] at this
  rw [this]
  simp [applyWrite]

theorem priceItemsStrict_scrub (s : Store) (rid : Nat) :
    ∀ items : List ReqItem,
      priceItemsStrict s rid (scrubClientPrices items) = priceItemsStrict s rid items := by
  intro items
  induction items with
  | nil => rfl
  | cons item rest ih =>
    simp only [scrubClientPrices, List.map_cons, priceItemsStrict]
    simp only [scrubClientPrices] at ih
    rw [ih]

theorem priceItemsSkip_scrub (s : Store) (rid : Nat) :
    ∀ items : List ReqItem,
      priceItemsSkip s rid (scrubClientPrices items) = priceItemsSkip s rid items := by
  intro items
  induction items with
  | nil => rfl
  | cons item rest ih =>
    simp only [scrubClientPrices, List.map_cons, priceItemsSkip]
    simp only [scrubClientPrices] at ih
    rw [ih]

theorem priceItemsStrict_quantities (s : Store) (rid : Nat) :
    ∀ (items : List ReqItem) (t : Int) (ps : List PreparedItem),
      priceItemsStrict s rid items = .ok (t, ps) →
      ps.map (fun p => p.quantity) = items.map (fun i => jsQtyDefault i.quantity) := by
  intro items
  induction items with
  | nil =>
    intro t ps h
    simp only [priceItemsStrict] at h
    cases h
    simp
  | cons item rest ih =>
    intro t ps h
    simp only [priceItemsStrict] at h
    cases hm : findMenuItem s item.menu_item_id rid with
    | none => rw [hm] at h; cases h
    | some m =>
      rw [hm] at h
      cases hr : priceItemsStrict s rid rest with
      | error e => rw [hr] at h; cases h
      | ok pr =>
        rw [hr] at h
        cases h
        simp [ih pr.1 pr.2 (by rw [hr])]

theorem priceItemsSkip_quantities (s : Store) (rid : Nat) :
    ∀ items : List ReqItem, ∀ p ∈ (priceItemsSkip s rid items).2,
      ∃ i ∈ items, p.quantity = jsQtyDefault i.quantity := by
  intro items
  induction items with
  | nil => intro p h; simp [priceItemsSkip] at h
  | cons item rest ih =>
    intro p h
    simp only [priceItemsSkip] at h
    cases hm : findMenuItem s item.menu_item_id rid with
    | none =>
      rw [hm] at h
      obtain ⟨i, hi, hq⟩ := ih p h
      exact ⟨i, List.mem_cons_of_mem _ hi, hq⟩
    | some m =>
      rw [hm] at h
      rcases List.mem_cons.mp h with hhd | htl
      · exact ⟨item, List.mem_cons_self _ _, by rw [hhd]⟩
      · obtain ⟨i, hi, hq⟩ := ih p htl
        exact ⟨i, List.mem_cons_of_mem _ hi, hq⟩

theorem priceItemsStrict_of_all_found (s : Store) (rid : Nat) :
    ∀ items : List ReqItem,
      (∀ i ∈ items, (findMenuItem s i.menu_item_id rid).isSome) →
      priceItemsStrict s rid items = .ok (priceItemsSkip s rid items) := by
  intro items
  induction items with
  | nil => intro _; rfl
  | cons item rest ih =>
    intro hall
    have hhd := hall item (List.mem_cons_self _ _)
    cases hm : findMenuItem s item.menu_item_id rid with
    | none => rw [hm] at hhd; cases hhd
    | some m =>
      have htl := ih (fun i hi => hall i (List.mem_cons_of_mem _ hi))
      simp only [priceItemsStrict, priceItemsSkip, hm, htl]

theorem priceItemsSkip_filter_found (s : Store) (rid : Nat) :
    ∀ items : List ReqItem,
      priceItemsSkip s rid items =
        priceItemsSkip s rid
          (items.filter (fun i => (findMenuItem s i.menu_item_id rid).isSome)) := by
  intro items
  induction items with
  | nil => rfl
  | cons item rest ih =>
    cases hm : findMenuItem s item.menu_item_id rid with
    | none => simp only [priceItemsSkip, hm, List.filter_cons, Option.isSome_none]; simpa [hm] using ih
    | some m =>
      simp only [List.filter_cons, Option.isSome_some, if_true, hm]
      simp only [priceItemsSkip, hm]
      rw [ih]

-- ─── Concrete fixtures for witnesses and counterexamples ─────

/-- A live, active table of restaurant 1. -/
def exTable : TableRow :=
  { id := 10, restaurant_id := 1, table_number := 3, qr_token := "tok-1", active := true }

/-- An active menu item of restaurant 1. -/
def exMenuItem : MenuItemRow :=
  { id := 1, restaurant_id := 1, name := "Paneer Tikka", price := 249, active := true }

/-- A second active menu item of restaurant 1. -/
def exMenuItem2 : MenuItemRow :=
  { id := 2, restaurant_id := 1, name := "Masala Chai", price := 49, active := true }

/-- A pending mock-mode payment intent, not yet linked to any order. -/
def exPayment : PaymentRow :=
  { id := 1, order_id := none, restaurant_id := 1, razorpay_order_id := "order_mock_7",
    razorpay_payment_id := "", razorpay_signature := "", amount := 249,
    status := "created", verified := false, payment_mode := .PREPAID }

/-- A pending payment intent with a non-mock external reference. -/
def exPaymentReal : PaymentRow :=
  { exPayment with id := 2, razorpay_order_id := "order_LiveRef9" }

/-- Base store: one table, two menu items, two pending payments, no orders. -/
def exStore : Store :=
  { tables := [exTable], menu_items := [exMenuItem, exMenuItem2], orders := [],
    order_items := [], payments := [exPayment, exPaymentReal],
    next_order_id := 1, now := 5 }

/-- An already-placed POSTPAID order on the table, with one line item. -/
def exOrder : OrderRow :=
  { id := 1, restaurant_id := 1, table_id := 10, internal_status := .PLACED,
    public_status := "Order placed", payment_mode := .POSTPAID,
    total_amount := 498, notes := "", updated_at := 5 }

/-- The line item of exOrder. -/
def exItemRow : OrderItemRow :=
  { order_id := 1, menu_item_id := 1, item_name := "Paneer Tikka", quantity := 2,
    price_at_order := 249, notes := "" }

/-- Store holding exOrder. -/
def exStoreWithOrder : Store :=
  { exStore with orders := [exOrder], order_items := [exItemRow], next_order_id := 2 }

/-- Mock-mode gateway configuration (no live credentials). -/
def cfgMock : Config :=
  { liveCreds := false, secret := "", hmacSha256 := fun _ _ => "" }

/-- Live gateway configuration with a concrete keyed-hash stand-in. -/
def cfgLive : Config :=
  { liveCreds := true, secret := "srv-secret", hmacSha256 := fun k m => k ++ "#" ++ m }

-- ─── Claim theorems ──────────────────────────────────────────

/-- C7: the customer subscription channel for order X forwards a message only
for order-updated events whose order id equals X, the forwarded payload holds
exactly the order id and the public status of the event, and two events that
agree on order id and public status (however much they differ in restaurant
id, internal status or table number) produce identical channel output — so no
other field of the underlying event can reach the customer. -/
theorem customer_event_scoping :
    (∀ (oid : Nat) (ev : BusEvent) (msg : CustomerStatusMsg),
       customerChannel oid ev = some msg →
       ∃ e, ev = .orderUpdated e ∧ e.order_id = oid ∧
         msg = { order_id := e.order_id, public_status := e.public_status }) ∧
    (∀ (oid : Nat) (e e' : OrderUpdatedEvent),
       e.order_id = e'.order_id → e.public_status = e'.public_status →
       customerChannel oid (.orderUpdated e) = customerChannel oid (.orderUpdated e')) := by
  constructor
  · intro oid ev msg h
    cases ev with
    | orderUpdated e =>
      refine ⟨e, rfl, ?_, ?_⟩
      · by_cases hid : e.order_id = oid
        · exact hid
        · simp [customerChannel, hid] at h
      · by_cases hid : e.order_id = oid
        · subst hid
          simp [customerChannel] at h
          exact h.symm
        · simp [customerChannel, hid] at h
    | newOrder rid o items => simp [customerChannel] at h
    | callWaiter rid tno => simp [customerChannel] at h
  · intro oid e e' h1 h2
    simp only [customerChannel, h1, h2]

/-- Event with internal fields, used to exercise the customer channel. -/
def evInternalA : OrderUpdatedEvent :=
  { restaurant_id := 1, order_id := 5, internal_status := .PREPARING,
    public_status := "Being prepared", table_number := some 3 }

/-- Same order id and public status as evInternalA, every other field different. -/
def evInternalB : OrderUpdatedEvent :=
  { restaurant_id := 2, order_id := 5, internal_status := .READY,
    public_status := "Being prepared", table_number := none }

/-- Witness for C7 at concrete events. -/
theorem customer_event_scoping_witness :
    (∃ e, BusEvent.orderUpdated evInternalA = .orderUpdated e ∧ e.order_id = 5 ∧
       ({ order_id := 5, public_status := "Being prepared" } : CustomerStatusMsg) =
         { order_id := e.order_id, public_status := e.public_status }) ∧
    customerChannel 5 (.orderUpdated evInternalA) =
      customerChannel 5 (.orderUpdated evInternalB) :=
  ⟨customer_event_scoping.1 5 (.orderUpdated evInternalA)
      { order_id := 5, public_status := "Being prepared" } rfl,
   customer_event_scoping.2 5 evInternalA evInternalB rfl rfl⟩

/-- C3: for every (role, target) pair outside the allowed sets (kitchen →
PREPARING/READY only, waiter → SERVED only, admin → anything), the status
route answers 403 (AuthorizationError), leaves the whole store — in
particular the order's stored internal status and every other field —
unchanged, and publishes no event. -/
theorem role_authorization (s : Store) (user : UserCtx) (oid : Nat)
    (str : String) (st : Status) (order : OrderRow)
    (hparse : parseStatus str = some st)
    (horder : findOrderForRestaurant s oid user.restaurant_id = some order)
    (hforbidden : allowedTarget user.role st = false) :
    (ordersUpdateStatus s user oid str).1 = s ∧
    (ordersUpdateStatus s user oid str).2.1.statusCode = 403 ∧
    (ordersUpdateStatus s user oid str).2.1.isErr = true ∧
    (ordersUpdateStatus s user oid str).2.2 = [] := by
  unfold ordersUpdateStatus
  rw [hparse, horder]
  cases hr : user.role <;> cases st <;>
    simp_all [allowedTarget, HttpResult.statusCode, HttpResult.isErr]

/-- Witness for C3: a kitchen user targeting SERVED on an existing order. -/
theorem role_authorization_witness :
    parseStatus "SERVED" = some .SERVED ∧
    findOrderForRestaurant exStoreWithOrder 1 1 = some exOrder ∧
    allowedTarget .kitchen .SERVED = false ∧
    ((ordersUpdateStatus exStoreWithOrder ⟨.kitchen, 1⟩ 1 "SERVED").1 = exStoreWithOrder ∧
     (ordersUpdateStatus exStoreWithOrder ⟨.kitchen, 1⟩ 1 "SERVED").2.1.statusCode = 403 ∧
     (ordersUpdateStatus exStoreWithOrder ⟨.kitchen, 1⟩ 1 "SERVED").2.1.isErr = true ∧
     (ordersUpdateStatus exStoreWithOrder ⟨.kitchen, 1⟩ 1 "SERVED").2.2 = []) :=
  ⟨rfl, rfl, rfl,
   role_authorization exStoreWithOrder ⟨.kitchen, 1⟩ 1 "SERVED" .SERVED exOrder rfl rfl rfl⟩

/-- C8: every accepted status transition persists the target internal status,
the public status derived from it by the fixed mapping, and an updated
timestamp, and publishes exactly one order-updated event carrying restaurant
id, order id, new internal and public status, and the order's table number;
the mapping is PLACED ↦ "Order placed", PREPARING ↦ "Being prepared",
READY ↦ "Almost ready", SERVED ↦ "Served". -/
theorem accepted_transition (s : Store) (user : UserCtx) (oid : Nat)
    (str : String) (st : Status) (order : OrderRow) (tno : Nat)
    (hparse : parseStatus str = some st)
    (horder : findOrderForRestaurant s oid user.restaurant_id = some order)
    (hallowed : allowedTarget user.role st = true)
    (htable : tableNumberOf s order.table_id = some tno) :
    (ordersUpdateStatus s user oid str).1 =
      { s with orders := s.orders.map (fun o =>
          if o.id == oid then
            { o with internal_status := st, public_status := STATUS_MAP st,
                     updated_at := s.now }
          else o) } ∧
    (ordersUpdateStatus s user oid str).2.1 =
      .ok 200 { internal_status := st, public_status := STATUS_MAP st } ∧
    (ordersUpdateStatus s user oid str).2.2 =
      [.orderUpdated { restaurant_id := user.restaurant_id, order_id := oid,
                       internal_status := st, public_status := STATUS_MAP st,
                       table_number := some tno }] ∧
    (STATUS_MAP .PLACED = "Order placed" ∧ STATUS_MAP .PREPARING = "Being prepared" ∧
     STATUS_MAP .READY = "Almost ready" ∧ STATUS_MAP .SERVED = "Served") := by
  unfold ordersUpdateStatus
  rw [hparse, horder]
  cases hr : user.role <;> cases st <;>
    simp_all [allowedTarget, STATUS_MAP]

/-- Witness for C8: kitchen advances the placed order to PREPARING. -/
theorem accepted_transition_witness :
    parseStatus "PREPARING" = some .PREPARING ∧
    findOrderForRestaurant exStoreWithOrder 1 1 = some exOrder ∧
    allowedTarget .kitchen .PREPARING = true ∧
    tableNumberOf exStoreWithOrder exOrder.table_id = some 3 ∧
    ((ordersUpdateStatus exStoreWithOrder ⟨.kitchen, 1⟩ 1 "PREPARING").1 =
      { exStoreWithOrder with orders := exStoreWithOrder.orders.map (fun o =>
          if o.id == 1 then
            { o with internal_status := .PREPARING, public_status := STATUS_MAP .PREPARING,
                     updated_at := exStoreWithOrder.now }
          else o) } ∧
     (ordersUpdateStatus exStoreWithOrder ⟨.kitchen, 1⟩ 1 "PREPARING").2.1 =
       .ok 200 { internal_status := .PREPARING, public_status := STATUS_MAP .PREPARING } ∧
     (ordersUpdateStatus exStoreWithOrder ⟨.kitchen, 1⟩ 1 "PREPARING").2.2 =
       [.orderUpdated { restaurant_id := 1, order_id := 1,
                        internal_status := .PREPARING,
                        public_status := STATUS_MAP .PREPARING,
                        table_number := some 3 }] ∧
     (STATUS_MAP .PLACED = "Order placed" ∧ STATUS_MAP .PREPARING = "Being prepared" ∧
      STATUS_MAP .READY = "Almost ready" ∧ STATUS_MAP .SERVED = "Served")) :=
  ⟨rfl, rfl, rfl, rfl,
   accepted_transition exStoreWithOrder ⟨.kitchen, 1⟩ 1 "PREPARING" .PREPARING exOrder 3
     rfl rfl rfl rfl⟩

/-- C1: prepaid gating — a direct PREPAID create request (which can never
carry the internal-call mark) is rejected with the store untouched and no
event; when the verify route computes verified = false it leaves the orders
and order_items tables untouched, marks every payment row carrying the
submitted external ref as failed, and reports verified = false; and the
verify route changes the orders table only when it computed verified = true
(the order row is created only as a side effect of successful verification). -/
theorem prepaid_gating :
    (∀ (s : Store) (req : CreateOrderReq),
        req.payment_mode = some "PREPAID" →
        (ordersCreate s req false).1 = s ∧
        (ordersCreate s req false).2.1.isErr = true ∧
        (ordersCreate s req false).2.2 = []) ∧
    (∀ (cfg : Config) (s : Store) (req : VerifyReq),
        verifyOutcome cfg s req = some false →
        (paymentsVerify cfg s req).1.orders = s.orders ∧
        (paymentsVerify cfg s req).1.order_items = s.order_items ∧
        (paymentsVerify cfg s req).1.payments =
          s.payments.map (fun p =>
            if p.razorpay_order_id == jsStrDefault req.razorpay_order_id then
              { p with status := "failed",
                       razorpay_payment_id := jsStrDefault req.razorpay_payment_id,
                       razorpay_signature := jsStrDefault req.razorpay_signature }
            else p) ∧
        verifyRespVerified (paymentsVerify cfg s req).2.1 = false) ∧
    (∀ (cfg : Config) (s : Store) (req : VerifyReq),
        (paymentsVerify cfg s req).1.orders ≠ s.orders →
        verifyOutcome cfg s req = some true) := by
  refine ⟨?_, ?_, ?_⟩
  · intro s req h
    unfold ordersCreate
    rw [h]
    have e0 : jsFalsyStr (some "PREPAID") = false := rfl
    rw [e0]
    have e1 : (!((some "PREPAID" : Option String) == some "PREPAID" ||
        (some "PREPAID" : Option String) == some "POSTPAID")) = false := rfl
    rw [e1]
    have e2 : ((some "PREPAID" : Option String) == some "PREPAID" && !false) = true := rfl
    rw [e2]
    by_cases h1 : (jsFalsyStr req.table_token || req.items.isEmpty || false) = true
    · rw [if_pos h1]
      exact ⟨rfl, rfl, rfl⟩
    · rw [if_neg h1]
      simp only [Bool.false_eq_true, if_false]
      cases ht : findTableByToken s req.table_token with
      | none => exact ⟨rfl, rfl, rfl⟩
      | some table => simp [HttpResult.isErr]
  · intro cfg s req hv
    simp only [verifyOutcome] at hv
    by_cases h1 : jsFalsyStr req.razorpay_order_id = true
    · rw [if_pos h1] at hv; cases hv
    · rw [if_neg h1] at hv
      cases ht : findTableByToken s req.table_token with
      | none => rw [ht] at hv; cases hv
      | some t =>
        rw [ht] at hv
        cases hp : findPaymentByRef s (jsStrDefault req.razorpay_order_id) with
        | none => rw [hp] at hv; cases hv
        | some p =>
          rw [hp] at hv
          have hcv : computeVerified cfg (jsStrDefault req.razorpay_order_id)
              req.razorpay_payment_id req.razorpay_signature = false :=
            Option.some.inj hv
          simp only [paymentsVerify]
          rw [if_neg h1, ht, hp, hcv]
          simp [markPaymentsFailed, verifyRespVerified]
  · intro cfg s req hne
    by_cases h1 : jsFalsyStr req.razorpay_order_id = true
    · exact absurd (by simp [paymentsVerify, h1]) hne
    · cases ht : findTableByToken s req.table_token with
      | none => exact absurd (by simp [paymentsVerify, h1, ht]) hne
      | some t =>
        cases hp : findPaymentByRef s (jsStrDefault req.razorpay_order_id) with
        | none => exact absurd (by simp [paymentsVerify, h1, ht, hp]) hne
        | some p =>
          cases hcv : computeVerified cfg (jsStrDefault req.razorpay_order_id)
              req.razorpay_payment_id req.razorpay_signature with
          | false =>
            exact absurd
              (by simp [paymentsVerify, h1, ht, hp, hcv, markPaymentsFailed]) hne
          | true => simp [verifyOutcome, h1, ht, hp, hcv]

/-- Direct PREPAID create attempt from outside the verification path. -/
def exPreReq : CreateOrderReq :=
  { table_token := some "tok-1",
    items := [{ menu_item_id := 1, quantity := none, price := none, notes := none }],
    payment_mode := some "PREPAID", notes := none }

/-- Successful mock-mode verify request for the pending mock intent. -/
def exVerReq : VerifyReq :=
  { razorpay_payment_id := some "pay_1", razorpay_order_id := some "order_mock_7",
    razorpay_signature := none, table_token := some "tok-1",
    items := [{ menu_item_id := 1, quantity := none, price := none, notes := none }],
    payment_mode := some "PREPAID", notes := none, order_id := none }

/-- Failing verify request: non-mock external ref while no live credentials
are configured, so verification computes false. -/
def exVerFailReq : VerifyReq :=
  { exVerReq with razorpay_order_id := some "order_LiveRef9" }

/-- Witness for C1 at concrete requests against the example store. -/
theorem prepaid_gating_witness :
    ((ordersCreate exStore exPreReq false).1 = exStore ∧
     (ordersCreate exStore exPreReq false).2.1.isErr = true ∧
     (ordersCreate exStore exPreReq false).2.2 = []) ∧
    ((paymentsVerify cfgMock exStore exVerFailReq).1.orders = exStore.orders ∧
     (paymentsVerify cfgMock exStore exVerFailReq).1.order_items = exStore.order_items ∧
     (paymentsVerify cfgMock exStore exVerFailReq).1.payments =
       exStore.payments.map (fun p =>
         if p.razorpay_order_id == jsStrDefault exVerFailReq.razorpay_order_id then
           { p with status := "failed",
                    razorpay_payment_id := jsStrDefault exVerFailReq.razorpay_payment_id,
                    razorpay_signature := jsStrDefault exVerFailReq.razorpay_signature }
         else p) ∧
     verifyRespVerified (paymentsVerify cfgMock exStore exVerFailReq).2.1 = false) ∧
    verifyOutcome cfgMock exStore exVerReq = some true :=
  ⟨prepaid_gating.1 exStore exPreReq rfl,
   prepaid_gating.2.1 cfgMock exStore exVerFailReq (by decide),
   prepaid_gating.2.2 cfgMock exStore exVerReq (by decide)⟩

/-- List.isEmpty is preserved by dropping client prices. -/
theorem scrubClientPrices_isEmpty (items : List ReqItem) :
    (scrubClientPrices items).isEmpty = items.isEmpty := by
  cases items <;> rfl

/-- C4: pricing integrity — a successful creation persists exactly one new
order whose stored total equals the sum of server price × quantity over its
inserted item rows and is echoed in the response; a successful item addition
appends item rows and sets the stored and reported total to the previous
total plus the same server-side sum over the added rows; and every handler's
outcome is unchanged when the client-submitted price fields are dropped from
the request (client prices are ignored). -/
theorem pricing_integrity :
    (∀ (s : Store) (req : CreateOrderReq) (ic : Bool) (s' : Store) (code : Nat)
        (body : CreateOrderBody) (evs : List BusEvent),
        ordersCreate s req ic = (s', .ok code body, evs) →
        ∃ o inserted,
          s'.orders = s.orders ++ [o] ∧
          s'.order_items = s.order_items ++ inserted ∧
          (∀ oi ∈ inserted, oi.order_id = o.id) ∧
          o.id = body.order_id ∧
          o.total_amount = orderItemsTotal inserted ∧
          body.total_amount = o.total_amount) ∧
    (∀ (s : Store) (oid : Nat) (req : AddItemsReq) (s' : Store) (code : Nat)
        (body : AddItemsBody) (evs : List BusEvent) (table : TableRow) (order : OrderRow),
        findTableByToken s req.table_token = some table →
        findOrderForTable s oid table.id .POSTPAID = some order →
        ordersAddItems s oid req = (s', .ok code body, evs) →
        ∃ inserted,
          s'.order_items = s.order_items ++ inserted ∧
          (∀ oi ∈ inserted, oi.order_id = oid) ∧
          body.total_amount = order.total_amount + orderItemsTotal inserted ∧
          s'.orders = s.orders.map (fun o =>
            if o.id == oid then { o with total_amount := body.total_amount } else o)) ∧
    (∀ (oid : Nat) (s : Store) (rid : Nat) (items : List ReqItem),
        (priceItemsSkip s rid items).1 =
          orderItemsTotal (mkItemRows oid (priceItemsSkip s rid items).2)) ∧
    (∀ (s : Store) (req : CreateOrderReq) (ic : Bool),
        ordersCreate s { req with items := scrubClientPrices req.items } ic =
          ordersCreate s req ic) ∧
    (∀ (s : Store) (oid : Nat) (req : AddItemsReq),
        ordersAddItems s oid { req with items := scrubClientPrices req.items } =
          ordersAddItems s oid req) ∧
    (∀ (cfg : Config) (s : Store) (req : VerifyReq),
        paymentsVerify cfg s { req with items := scrubClientPrices req.items } =
          paymentsVerify cfg s req) := by
  refine ⟨?_, ?_, ?_, ?_, ?_, ?_⟩
  · intro s req ic s' code body evs h
    unfold ordersCreate at h
    by_cases h1 : (jsFalsyStr req.table_token || req.items.isEmpty ||
        jsFalsyStr req.payment_mode) = true
    · rw [if_pos h1] at h; simp at h
    · rw [if_neg h1] at h
      by_cases h2 : (!(req.payment_mode == some "PREPAID" ||
          req.payment_mode == some "POSTPAID")) = true
      · rw [if_pos h2] at h; simp at h
      · rw [if_neg h2] at h
        cases ht : findTableByToken s req.table_token with
        | none => rw [ht] at h; simp at h
        | some table =>
          rw [ht] at h
          dsimp only at h
          by_cases h3 : (req.payment_mode == some "PREPAID" && !ic) = true
          · rw [if_pos h3] at h; simp at h
          · rw [if_neg h3] at h
            cases hpr : priceItemsStrict s table.restaurant_id req.items with
            | error e => rw [hpr] at h; simp at h
            | ok pr =>
              obtain ⟨totalAmount, orderItems⟩ := pr
              rw [hpr] at h
              dsimp only at h
              rw [runWrites_creation] at h
              simp only [Prod.mk.injEq, HttpResult.ok.injEq] at h
              obtain ⟨hs', ⟨hcode, hbody⟩, hevs⟩ := h
              refine ⟨mkOrderRow s table
                  (if req.payment_mode == some "PREPAID" then .PREPAID else .POSTPAID)
                  totalAmount req.notes,
                mkItemRows s.next_order_id orderItems, ?_, ?_, ?_, ?_, ?_, ?_⟩
              · rw [← hs']
              · rw [← hs']
                rfl
              · exact mkItemRows_order_id s.next_order_id orderItems
              · rw [← hbody]
              · rw [orderItemsTotal_mkItemRows]
                exact priceItemsStrict_total s table.restaurant_id req.items
                  totalAmount orderItems hpr
              · rw [← hbody]
                rfl
  · intro s oid req s' code body evs table order ht ho h
    unfold ordersAddItems at h
    by_cases h1 : (jsFalsyStr req.table_token || req.items.isEmpty) = true
    · rw [if_pos h1] at h; simp at h
    · rw [if_neg h1] at h
      rw [ht] at h
      dsimp only at h
      rw [ho] at h
      dsimp only at h
      by_cases h2 : (order.internal_status == Status.SERVED) = true
      · rw [if_pos h2] at h; simp at h
      · rw [if_neg h2] at h
        cases hpr : priceItemsStrict s table.restaurant_id req.items with
        | error e => rw [hpr] at h; simp at h
        | ok pr =>
          obtain ⟨additionalAmount, newItems⟩ := pr
          rw [hpr] at h
          dsimp only at h
          rw [runWrites_insertItems] at h
          simp only [Prod.mk.injEq, HttpResult.ok.injEq] at h
          obtain ⟨hs', ⟨hcode, hbody⟩, hevs⟩ := h
          refine ⟨mkItemRows oid newItems, ?_, ?_, ?_, ?_⟩
          · rw [← hs']; rfl
          · exact mkItemRows_order_id oid newItems
          · rw [← hbody, orderItemsTotal_mkItemRows,
              priceItemsStrict_total s table.restaurant_id req.items
                additionalAmount newItems hpr]
          · rw [← hs', ← hbody]; rfl
  · intro oid s rid items
    rw [orderItemsTotal_mkItemRows]
    exact priceItemsSkip_total s rid items
  · intro s req ic
    simp only [ordersCreate, scrubClientPrices_isEmpty,
      priceItemsStrict_scrub s]
  · intro s oid req
    simp only [ordersAddItems, scrubClientPrices_isEmpty,
      priceItemsStrict_scrub s]
  · intro cfg s req
    simp only [paymentsVerify, scrubClientPrices_isEmpty,
      priceItemsSkip_scrub]

/-- POSTPAID creation request: two of item 1, with a client-chosen price
field that the server must ignore. -/
def exCreateReq : CreateOrderReq :=
  { table_token := some "tok-1",
    items := [{ menu_item_id := 1, quantity := some 2, price := some 1, notes := none }],
    payment_mode := some "POSTPAID", notes := none }

/-- Expected response body of the POSTPAID creation. -/
def exCreateBody : CreateOrderBody :=
  { order_id := 1, public_status := "Order placed", total_amount := 498,
    payment_mode := "POSTPAID" }

/-- Item-addition request on the placed order: one of item 2. -/
def exAddReq : AddItemsReq :=
  { table_token := some "tok-1",
    items := [{ menu_item_id := 2, quantity := none, price := some 3, notes := none }] }

/-- Store after the item addition (the handler output itself). -/
def exAddStore : Store := (ordersAddItems exStoreWithOrder 1 exAddReq).1

/-- Expected response body of the item addition. -/
def exAddBody : AddItemsBody :=
  { order_id := 1, total_amount := 547, added_items := 1,
    public_status := "Order placed" }

/-- Witness for C4: the creation and addition parts applied at concrete
requests against the example store. -/
theorem pricing_integrity_witness :
    (∃ o inserted,
       exStoreWithOrder.orders = exStore.orders ++ [o] ∧
       exStoreWithOrder.order_items = exStore.order_items ++ inserted ∧
       (∀ oi ∈ inserted, oi.order_id = o.id) ∧
       o.id = exCreateBody.order_id ∧
       o.total_amount = orderItemsTotal inserted ∧
       exCreateBody.total_amount = o.total_amount) ∧
    (∃ inserted,
       exAddStore.order_items = exStoreWithOrder.order_items ++ inserted ∧
       (∀ oi ∈ inserted, oi.order_id = 1) ∧
       exAddBody.total_amount = exOrder.total_amount + orderItemsTotal inserted ∧
       exAddStore.orders = exStoreWithOrder.orders.map (fun o =>
         if o.id == 1 then { o with total_amount := exAddBody.total_amount } else o)) :=
  ⟨pricing_integrity.1 exStore exCreateReq false exStoreWithOrder 201 exCreateBody
     [.newOrder 1 exOrder [exItemRow]] (by decide),
   pricing_integrity.2.1 exStoreWithOrder 1 exAddReq exAddStore 200 exAddBody
     [.orderUpdated { restaurant_id := 1, order_id := 1, internal_status := .PLACED,
                      public_status := "Order placed", table_number := some 3 }]
     exTable exOrder rfl rfl (by decide)⟩

/-- C10: the public get-order route succeeds with no table token for any
existing order whose table row exists, returning table number, public
status, payment mode, total, the line items and the latest payment status;
a supplied non-empty token that does not resolve to the order's table is
rejected with 403 — so the token is validated only when supplied. -/
theorem public_get_order (s : Store) (oid : Nat) (order : OrderRow) (tbl : TableRow)
    (horder : s.orders.find? (fun o => o.id == oid) = some order)
    (htbl : s.tables.find? (fun t => t.id == order.table_id) = some tbl) :
    ordersGet s oid none =
      .ok 200 { id := order.id, table_number := tbl.table_number,
                public_status := order.public_status,
                payment_mode := order.payment_mode,
                total_amount := order.total_amount,
                items := (s.order_items.filter (fun oi => oi.order_id == oid)).map
                  (fun oi => ({ item_name := oi.item_name, quantity := oi.quantity,
                                price_at_order := oi.price_at_order,
                                notes := oi.notes } : OrderItemView)),
                payment_status :=
                  match latestPaymentForOrder s oid with
                  | some p => some p.status
                  | none =>
                      if order.payment_mode == .POSTPAID then some "pending" else none } ∧
    (∀ tok : String, tok.isEmpty = false →
      (∀ t2, s.tables.find? (fun t => t.qr_token == tok) = some t2 →
        t2.id ≠ order.table_id) →
      ordersGet s oid (some tok) = .err 403 "Access denied") := by
  constructor
  · unfold ordersGet
    rw [horder]
    dsimp only
    rw [htbl]
    dsimp only
    rfl
  · intro tok hne hmis
    unfold ordersGet
    rw [horder]
    dsimp only
    rw [htbl]
    dsimp only
    have hf : jsFalsyStr (some tok) = false := hne
    rw [hf]
    simp only [Bool.false_eq_true, if_false]
    cases hq : s.tables.find? (fun t => t.qr_token == jsStrDefault (some tok)) with
    | none => rfl
    | some t2 =>
      have hne2 : t2.id ≠ order.table_id := hmis t2 hq
      dsimp only
      simp [hne2]

/-- Witness for C10 on the example store: tokenless read succeeds; the
unknown token "bad" is rejected. -/
theorem public_get_order_witness :
    ordersGet exStoreWithOrder 1 none =
      .ok 200 { id := exOrder.id, table_number := exTable.table_number,
                public_status := exOrder.public_status,
                payment_mode := exOrder.payment_mode,
                total_amount := exOrder.total_amount,
                items := (exStoreWithOrder.order_items.filter
                    (fun oi => oi.order_id == 1)).map
                  (fun oi => ({ item_name := oi.item_name, quantity := oi.quantity,
                                price_at_order := oi.price_at_order,
                                notes := oi.notes } : OrderItemView)),
                payment_status :=
                  match latestPaymentForOrder exStoreWithOrder 1 with
                  | some p => some p.status
                  | none =>
                      if exOrder.payment_mode == .POSTPAID then some "pending"
                      else none } ∧
    ordersGet exStoreWithOrder 1 (some "bad") = .err 403 "Access denied" :=
  ⟨(public_get_order exStoreWithOrder 1 exOrder exTable rfl rfl).1,
   (public_get_order exStoreWithOrder 1 exOrder exTable rfl rfl).2 "bad" rfl
     (fun t2 h => by
       have hq : (none : Option TableRow) = some t2 := h
       exact Option.noConfusion hq)⟩

/-- Creation request whose single line carries a client-submitted negative
quantity. -/
def exNegReq : CreateOrderReq :=
  { table_token := some "tok-1",
    items := [{ menu_item_id := 1, quantity := some (-2), price := none, notes := none }],
    payment_mode := some "POSTPAID", notes := none }

/-- Counterexample to C9: submitting quantity -2 succeeds and the persisted
OrderItem row stores the negative quantity -2, which is not a positive
integer. -/
theorem quantity_positive_cex :
    (ordersCreate exStore exNegReq false).2.1.isErr = false ∧
    (ordersCreate exStore exNegReq false).1.order_items.map (fun oi => oi.quantity)
      = [-2] ∧
    (-2 : Int) < 0 := by
  refine ⟨by decide, by decide, by decide⟩

/-- C9 as amended: a persisted OrderItem's quantity is exactly
`submitted || 1` — the submitted value whenever it is nonzero (so negative
submissions are stored as-is), and 1 when the field is absent or zero; the
stored quantity is therefore positive exactly for absent, zero or positive
submissions. -/
theorem quantity_default_amended :
    (∀ (s : Store) (rid : Nat) (items : List ReqItem) (t : Int)
        (ps : List PreparedItem),
       priceItemsStrict s rid items = .ok (t, ps) →
       ps.map (fun p => p.quantity) = items.map (fun i => jsQtyDefault i.quantity)) ∧
    (∀ (s : Store) (rid : Nat) (items : List ReqItem),
       ∀ p ∈ (priceItemsSkip s rid items).2,
       ∃ i ∈ items, p.quantity = jsQtyDefault i.quantity) ∧
    jsQtyDefault none = 1 ∧
    jsQtyDefault (some 0) = 1 ∧
    (∀ v : Int, v ≠ 0 → jsQtyDefault (some v) = v) ∧
    (∀ v : Int, 0 ≤ v → 0 < jsQtyDefault (some v)) := by
  refine ⟨priceItemsStrict_quantities, priceItemsSkip_quantities, rfl, rfl, ?_, ?_⟩
  · intro v hv
    simp [jsQtyDefault, hv]
  · intro v hv
    by_cases h0 : v = 0
    · simp [jsQtyDefault, h0]
    · simp only [jsQtyDefault, h0, if_false]
      omega

/-- Witness for C9's amended statement at a concrete pricing run. -/
theorem quantity_default_amended_witness :
    ([({ menu_item_id := 1, item_name := "Paneer Tikka", quantity := 2,
         price_at_order := 249, notes := "" } : PreparedItem)].map
        (fun p => p.quantity)
      = exCreateReq.items.map (fun i => jsQtyDefault i.quantity)) ∧
    jsQtyDefault (some 7) = 7 ∧
    0 < jsQtyDefault (some 0) :=
  ⟨quantity_default_amended.1 exStore 1 exCreateReq.items 498
     [{ menu_item_id := 1, item_name := "Paneer Tikka", quantity := 2,
        price_at_order := 249, notes := "" }] rfl,
   quantity_default_amended.2.2.2.2.1 7 (by decide),
   quantity_default_amended.2.2.2.2.2 0 (by decide)⟩

/-- Counterexample to C5: with live credentials configured, a verify request
that submits no signature but a mock-prefixed external ref is auto-verified
— no signature is ever compared against the HMAC. -/
theorem mock_gating_cex :
    cfgLive.liveCreds = true ∧
    exVerReq.razorpay_signature = none ∧
    verifyRespVerified (paymentsVerify cfgLive exStore exVerReq).2.1 = true := by
  refine ⟨rfl, rfl, by decide⟩

/-- C5 as amended: the HMAC comparison governs the outcome exactly when live
credentials are configured AND the request submits a truthy signature; in
every other case — no live credentials, or no submitted signature — the
outcome is exactly the mock-prefix test on the external ref; a verified
response implies the computed flag was true, and a false computed flag
yields an unverified response. -/
theorem mock_gating_amended (cfg : Config) (s : Store) (req : VerifyReq) (b : Bool)
    (h : verifyOutcome cfg s req = some b) :
    (verifyRespVerified (paymentsVerify cfg s req).2.1 = true → b = true) ∧
    (b = false → verifyRespVerified (paymentsVerify cfg s req).2.1 = false) ∧
    (cfg.liveCreds = true → jsFalsyStr req.razorpay_signature = false →
       (b = true ↔
         cfg.hmacSha256 cfg.secret
             (jsStrDefault req.razorpay_order_id ++ "|" ++
               jsConcatVal req.razorpay_payment_id)
           = jsStrDefault req.razorpay_signature)) ∧
    ((cfg.liveCreds = false ∨ jsFalsyStr req.razorpay_signature = true) →
       (b = true ↔
         strStartsWith (jsStrDefault req.razorpay_order_id) "order_mock_" = true)) := by
  simp only [verifyOutcome] at h
  by_cases h1 : jsFalsyStr req.razorpay_order_id = true
  · rw [if_pos h1] at h; cases h
  · rw [if_neg h1] at h
    cases ht : findTableByToken s req.table_token with
    | none => rw [ht] at h; cases h
    | some t =>
      rw [ht] at h
      cases hp : findPaymentByRef s (jsStrDefault req.razorpay_order_id) with
      | none => rw [hp] at h; cases h
      | some p =>
        rw [hp] at h
        have hb : computeVerified cfg (jsStrDefault req.razorpay_order_id)
            req.razorpay_payment_id req.razorpay_signature = b := Option.some.inj h
        refine ⟨?_, ?_, ?_, ?_⟩
        · intro hrv
          cases hcv : computeVerified cfg (jsStrDefault req.razorpay_order_id)
              req.razorpay_payment_id req.razorpay_signature with
          | false =>
            simp [paymentsVerify, h1, ht, hp, hcv, verifyRespVerified] at hrv
          | true => rw [← hb, hcv]
        · intro hbf
          rw [hbf] at hb
          simp [paymentsVerify, h1, ht, hp, hb, verifyRespVerified]
        · intro hl hs
          rw [← hb]
          simp [computeVerified, hl, hs, beq_iff_eq]
        · intro hor
          rw [← hb]
          rcases hor with hl | hs
          · simp [computeVerified, hl]
          · simp [computeVerified, hs]

/-- Witness for C5's amended statement: in mock mode the pending mock intent
verifies and the response reports it. -/
theorem mock_gating_amended_witness :
    (verifyRespVerified (paymentsVerify cfgMock exStore exVerReq).2.1 = true →
      (true : Bool) = true) ∧
    (cfgMock.liveCreds = false ∨ jsFalsyStr exVerReq.razorpay_signature = true →
      ((true : Bool) = true ↔
        strStartsWith (jsStrDefault exVerReq.razorpay_order_id) "order_mock_" = true)) :=
  ⟨(mock_gating_amended cfgMock exStore exVerReq true (by decide)).1,
   (mock_gating_amended cfgMock exStore exVerReq true (by decide)).2.2.2⟩

/-- POSTPAID creation referencing an unknown menu item id. -/
def exMissReq : CreateOrderReq :=
  { table_token := some "tok-1",
    items := [{ menu_item_id := 99, quantity := none, price := none, notes := none }],
    payment_mode := some "POSTPAID", notes := none }

/-- PREPAID verification completing with the same unknown menu item id. -/
def exMissVerReq : VerifyReq :=
  { exVerReq with
    items := [{ menu_item_id := 99, quantity := none, price := none, notes := none }] }

/-- Counterexample to C6: on an item list referencing a missing menu item,
POSTPAID creation rejects without creating an order, but the PREPAID
completion path still creates an order — with no item rows at all. -/
theorem prepaid_equiv_cex :
    ((ordersCreate exStore exMissReq false).2.1.isErr = true ∧
     (ordersCreate exStore exMissReq false).1.orders = []) ∧
    ((paymentsVerify cfgMock exStore exMissVerReq).2.1.isErr = false ∧
     (paymentsVerify cfgMock exStore exMissVerReq).1.orders.length = 1 ∧
     (paymentsVerify cfgMock exStore exMissVerReq).1.order_items = []) := by
  refine ⟨⟨by decide, by decide⟩, by decide, by decide, by decide⟩

/-- C6 as amended: both paths price with the same server-side lookup and
agree whenever every referenced item exists and is active; an empty
submitted item list creates no order in either path; but on missing or
inactive items they differ — the strict loop of POSTPAID creation rejects,
while the PREPAID loop silently drops exactly the missing lines. -/
theorem prepaid_equiv_amended :
    (∀ (s : Store) (rid : Nat) (items : List ReqItem),
       (∀ i ∈ items, (findMenuItem s i.menu_item_id rid).isSome) →
       priceItemsStrict s rid items = .ok (priceItemsSkip s rid items)) ∧
    (∀ (s : Store) (rid : Nat) (items : List ReqItem),
       priceItemsSkip s rid items =
         priceItemsSkip s rid
           (items.filter (fun i => (findMenuItem s i.menu_item_id rid).isSome))) ∧
    (∀ (s : Store) (req : CreateOrderReq) (ic : Bool),
       req.items = [] →
       (ordersCreate s req ic).1 = s ∧ (ordersCreate s req ic).2.1.isErr = true) ∧
    (∀ (cfg : Config) (s : Store) (req : VerifyReq),
       req.items = [] →
       ¬(req.payment_mode = some "POSTPAID" ∧ jsTruthyNat req.order_id = true) →
       (paymentsVerify cfg s req).1.orders = s.orders ∧
       (paymentsVerify cfg s req).2.1.isErr = true) := by
  refine ⟨priceItemsStrict_of_all_found, priceItemsSkip_filter_found, ?_, ?_⟩
  · intro s req ic hitems
    simp [ordersCreate, hitems, HttpResult.isErr]
  · intro cfg s req hitems hmode
    by_cases h1 : jsFalsyStr req.razorpay_order_id = true
    · simp [paymentsVerify, h1, HttpResult.isErr]
    · cases ht : findTableByToken s req.table_token with
      | none => simp [paymentsVerify, h1, ht, HttpResult.isErr]
      | some t =>
        cases hp : findPaymentByRef s (jsStrDefault req.razorpay_order_id) with
        | none => simp [paymentsVerify, h1, ht, hp, HttpResult.isErr]
        | some p =>
          cases hcv : computeVerified cfg (jsStrDefault req.razorpay_order_id)
              req.razorpay_payment_id req.razorpay_signature with
          | false =>
            simp [paymentsVerify, h1, ht, hp, hcv, markPaymentsFailed,
              HttpResult.isErr]
          | true =>
            have hpost : (req.payment_mode == some "POSTPAID" &&
                jsTruthyNat req.order_id) = false := by
              cases hx : (req.payment_mode == some "POSTPAID" &&
                  jsTruthyNat req.order_id) with
              | false => rfl
              | true =>
                rw [Bool.and_eq_true, beq_iff_eq] at hx
                exact absurd ⟨hx.1, hx.2⟩ hmode
            simp [paymentsVerify, h1, ht, hp, hcv, hpost, hitems,
              markPaymentsPaid, HttpResult.isErr]

/-- Request with no line items at all. -/
def exEmptyReq : CreateOrderReq :=
  { table_token := some "tok-1", items := [], payment_mode := some "POSTPAID",
    notes := none }

/-- PREPAID verification submitting no line items. -/
def exEmptyVerReq : VerifyReq := { exVerReq with items := [] }

/-- Witness for C6's amended statement at concrete inputs. -/
theorem prepaid_equiv_amended_witness :
    priceItemsStrict exStore 1 exCreateReq.items =
      .ok (priceItemsSkip exStore 1 exCreateReq.items) ∧
    ((ordersCreate exStore exEmptyReq false).1 = exStore ∧
     (ordersCreate exStore exEmptyReq false).2.1.isErr = true) ∧
    ((paymentsVerify cfgMock exStore exEmptyVerReq).1.orders = exStore.orders ∧
     (paymentsVerify cfgMock exStore exEmptyVerReq).2.1.isErr = true) :=
  ⟨prepaid_equiv_amended.1 exStore 1 exCreateReq.items (by decide),
   prepaid_equiv_amended.2.2.1 exStore exEmptyReq false rfl,
   prepaid_equiv_amended.2.2.2 cfgMock exStore exEmptyVerReq rfl
     (by intro hx; exact absurd hx.1 (by decide))⟩

/-- Store after the mock verification marks the payment paid, just before
the creation transaction body runs. -/
def exPaidStore : Store := markPaymentsPaid exStore "order_mock_7" (some "pay_1") none

/-- The prepared lines of the mock PREPAID completion. -/
def exPrepItems : List PreparedItem := (priceItemsSkip exPaidStore 1 exVerReq.items).2

/-- The order row the PREPAID completion inserts. -/
def exNewOrder : OrderRow :=
  mkOrderRow exPaidStore exTable .PREPAID (priceItemsSkip exPaidStore 1 exVerReq.items).1 none

/-- The write sequence of the PREPAID completion transaction body:
insert order, insert each item, link the payment. -/
def exWrites : List WriteStep := prepaidCreationWrites exNewOrder exPrepItems "order_mock_7"

/-- C2 failing run: db.transaction is a plain sequential call with no
rollback, the verify handler's final store is exactly the fold of the write
sequence, and stopping after the first write (an insert failure at step 2)
leaves an order row persisted with zero item rows and the payment unlinked —
the partial state the claim says can never exist. -/
theorem atomicity_code_bug :
    dbTransaction = (fun fn => fn) ∧
    (paymentsVerify cfgMock exStore exVerReq).1 = runWrites exPaidStore exWrites ∧
    exWrites.length = 3 ∧
    (runWritesPrefix exPaidStore exWrites 1).orders.length = 1 ∧
    (runWritesPrefix exPaidStore exWrites 1).order_items = [] ∧
    ((runWritesPrefix exPaidStore exWrites 1).payments.all
      (fun p => p.order_id == none)) = true := by
  refine ⟨rfl, by decide, by decide, by decide, by decide, by decide⟩

end QRCafe
